import Mathlib

/-!
Verification of `src/tmp/shuffle_script.py` against its specification.

The script (after its imports of the random, sys and json modules, the last
of which is unused) is:

  def generate_mixed_messages(n):
      messages = [i for i in range(1, n + 1)]
      random.shuffle(messages)
      return messages

  if __name__ == "__main__":
      if len(sys.argv) > 1:
          n = int(sys.argv[1])
          result = generate_mixed_messages(n)
          print(' '.join(map(str, result)))

The embedding below models each Python construct directly:
`range`, `random.shuffle` (CPython's Fisher-Yates loop, with the stream of
pseudo-random draws abstracted as an oracle `r : Nat → Nat`), `int(...)`
parsing, `str(...)` rendering, `' '.join(...)`, `print`, and the `__main__`
block as a function from the argument vector and the random oracle to an
exit code plus a trace of observable side effects.
-/

namespace ShuffleScript

/-- Models Python `range(a, b)` specialised to integer bounds: the list
`[a, a+1, ..., b-1]`, empty when `b ≤ a`.  The comprehension
`[i for i in range(1, n + 1)]` is `pyRange 1 (n + 1)`. -/
def pyRange (a b : Int) : List Int :=
  List.map (fun k : Nat => a + (k : Int)) (List.range (b - a).toNat)

/-- Models the Python parallel assignment `x[i], x[j] = x[j], x[i]`:
both right-hand sides are read from the original list, then stored.
Out-of-range indices never occur at the call sites (see `shuffleFrom`). -/
def swap (xs : List Int) (i j : Nat) : List Int :=
  (xs.set i (xs.getD j 0)).set j (xs.getD i 0)

/-- Models CPython's `random.shuffle` loop
`for i in reversed(range(1, len(x))): j = randbelow(i + 1); swap x[i], x[j]`.
The counter argument is the current loop index `i`, counting down to `1`;
`randbelow(i + 1)`, which returns a pseudo-random value in `[0, i]`, is
modelled as `r i % (i + 1)` where `r` is the oracle for the stream of draws. -/
def shuffleFrom (r : Nat → Nat) : List Int → Nat → List Int
  | xs, 0 => xs
  | xs, i + 1 => shuffleFrom r (swap xs (i + 1) (r (i + 1) % (i + 2))) i

/-- Models `random.shuffle(x)`: run the Fisher-Yates loop starting at
index `len(x) - 1`. -/
def shuffle (r : Nat → Nat) (xs : List Int) : List Int :=
  shuffleFrom r xs (xs.length - 1)

/-- Models `generate_mixed_messages(n)`: build `[i for i in range(1, n + 1)]`
and shuffle it with the pseudo-random oracle `r`. -/
def generate_mixed_messages (n : Int) (r : Nat → Nat) : List Int :=
  shuffle r (pyRange 1 (n + 1))

/-- Decimal digit character for `d % 10`. -/
def digitChar (d : Nat) : Char :=
  match d % 10 with
  | 0 => '0'
  | 1 => '1'
  | 2 => '2'
  | 3 => '3'
  | 4 => '4'
  | 5 => '5'
  | 6 => '6'
  | 7 => '7'
  | 8 => '8'
  | _ => '9'

/-- Decimal digit characters of `n`, most significant first.  The first
argument is recursion fuel; any `fuel > n` yields the full rendering, since
each step divides `n` by ten. -/
def natToDecimalAux : Nat → Nat → List Char
  | 0, _ => []
  | fuel + 1, n =>
    if n < 10 then [digitChar n]
    else natToDecimalAux fuel (n / 10) ++ [digitChar (n % 10)]

/-- Decimal rendering of a natural number, most significant digit first. -/
def natToDecimal (n : Nat) : String :=
  ⟨natToDecimalAux (n + 1) n⟩

/-- Models Python `str(i)` on an integer: decimal digits, with a leading
`-` for negative values. -/
def pyStr (i : Int) : String :=
  if i < 0 then "-" ++ natToDecimal (-i).toNat else natToDecimal i.toNat

/-- Models Python `sep.join(strings)`: the elements concatenated with a
single copy of `sep` between consecutive elements, `""` on the empty list. -/
def pyJoin (sep : String) : List String → String
  | [] => ""
  | [x] => x
  | x :: y :: rest => x ++ sep ++ pyJoin sep (y :: rest)

/-- Whitespace characters stripped by Python's `int(string)` conversion. -/
def isPySpace (c : Char) : Bool :=
  c == ' ' || c == '\t' || c == '\n' || c == '\x0b' || c == '\x0c' || c == '\r'

/-- Value accumulated from a list of decimal digit characters. -/
def digitsToNat (cs : List Char) : Nat :=
  cs.foldl (fun acc c => 10 * acc + (c.toNat - 48)) 0

/-- Models Python's `int(string)` conversion on decimal strings: optional
surrounding whitespace, an optional `+` or `-` sign, then one or more ASCII
decimal digits; every other string raises `ValueError`, modelled as `none`.
(Underscore digit separators and non-ASCII digits are not modelled; no
claim depends on them.) -/
def parseInt (s : String) : Option Int :=
  let cs := ((s.data.dropWhile isPySpace).reverse.dropWhile isPySpace).reverse
  match cs with
  | [] => none
  | c :: rest =>
    let sign : Int := if c == '-' then -1 else 1
    let ds := if c == '-' || c == '+' then rest else c :: rest
    if ds.isEmpty then none
    else if ds.all Char.isDigit then some (sign * (digitsToNat ds : Int))
    else none

/-- Observable side effects a process could perform.  The trace produced by
`runMain` records every effect of the script; constructors other than
`stdoutWrite` exist so that the frame property "writes to standard output
only" is a statement rather than a tautology of the trace type. -/
inductive Effect where
  | stdoutWrite (s : String)
  | fileWrite (path contents : String)
  | fileRead (path : String)
  | networkAccess (endpoint : String)
  deriving DecidableEq, Repr

/-- Recognises a write to standard output. -/
def Effect.isStdoutWrite : Effect → Bool
  | .stdoutWrite _ => true
  | _ => false

/-- Result of one invocation: the process exit status and the trace of
observable side effects, in order. -/
structure RunResult where
  exitCode : Nat
  trace : List Effect
  deriving DecidableEq, Repr

/-- Models the `__main__` block.  `argv` is `sys.argv` (program name first).
With no argument the guard `len(sys.argv) > 1` fails and nothing happens
(exit 0, empty trace).  Otherwise `int(sys.argv[1])` either raises
`ValueError` — an uncaught exception, so exit status 1 and nothing on
standard output — or yields `n`, and `print(' '.join(map(str, result)))`
writes the joined rendering followed by the newline `print` appends. -/
def runMain (argv : List String) (r : Nat → Nat) : RunResult :=
  match argv with
  | _prog :: arg :: _ =>
    match parseInt arg with
    | none => ⟨1, []⟩
    | some n =>
      let result := generate_mixed_messages n r
      ⟨0, [Effect.stdoutWrite (pyJoin " " (result.map pyStr) ++ "\n")]⟩
  | _ => ⟨0, []⟩

/-- Spec-side description of the sequence "1..N": the increasing list
`[1, 2, ..., N]`. -/
def oneToN (N : Nat) : List Int :=
  List.map (fun k : Nat => (k : Int) + 1) (List.range N)

/-! Helper lemmas -/

theorem length_swap (xs : List Int) (i j : Nat) : (swap xs i j).length = xs.length := by
  simp [swap]

theorem swap_perm (xs : List Int) (i j : Nat) (hi : i < xs.length) (hj : j < xs.length) :
    (swap xs i j).Perm xs := by
  rw [List.perm_iff_count]
  intro b
  have hj' : j < (xs.set i (xs.getD j 0)).length := by simpa using hj
  have hgi : xs.getD i 0 = xs[i] := List.getD_eq_getElem xs 0 hi
  have hgj : xs.getD j 0 = xs[j] := List.getD_eq_getElem xs 0 hj
  have hset : (xs.set i (xs.getD j 0))[j] = xs[j] := by
    rw [List.getElem_set]
    split
    · rw [hgj]
    · rfl
  rw [swap, List.count_set _ _ _ _ hj', List.count_set _ _ _ _ hi, hset, hgi, hgj]
  have hmi : xs[i] ∈ xs := List.getElem_mem hi
  have hmj : xs[j] ∈ xs := List.getElem_mem hj
  by_cases h1 : xs[i] = b <;> by_cases h2 : xs[j] = b
  · have : 0 < xs.count b := List.count_pos_iff.mpr (h1 ▸ hmi)
    simp only [h1, h2, beq_self_eq_true, if_true]
    omega
  · have : 0 < xs.count b := List.count_pos_iff.mpr (h1 ▸ hmi)
    have hb2 : (xs[j] == b) = false := by simpa using h2
    simp only [h1, hb2, beq_self_eq_true, if_true, Bool.false_eq_true, if_false]
    omega
  · have : 0 < xs.count b := List.count_pos_iff.mpr (h2 ▸ hmj)
    have hb1 : (xs[i] == b) = false := by simpa using h1
    simp only [h2, hb1, beq_self_eq_true, if_true, Bool.false_eq_true, if_false]
    omega
  · have hb1 : (xs[i] == b) = false := by simpa using h1
    have hb2 : (xs[j] == b) = false := by simpa using h2
    simp only [hb1, hb2, Bool.false_eq_true, if_false]
    omega

theorem shuffleFrom_perm (r : Nat → Nat) :
    ∀ (i : Nat) (xs : List Int), i < xs.length → (shuffleFrom r xs i).Perm xs := by
  intro i
  induction i with
  | zero => intro xs _; exact List.Perm.refl xs
  | succ i ih =>
    intro xs hlt
    have hj : r (i + 1) % (i + 2) < xs.length :=
      lt_of_lt_of_le (Nat.mod_lt _ (by omega)) (by omega)
    have hswap := swap_perm xs (i + 1) (r (i + 1) % (i + 2)) hlt hj
    have hlen : (swap xs (i + 1) (r (i + 1) % (i + 2))).length = xs.length :=
      length_swap xs _ _
    exact (ih _ (by omega)).trans hswap

theorem shuffle_perm (r : Nat → Nat) (xs : List Int) : (shuffle r xs).Perm xs := by
  cases xs with
  | nil => exact List.Perm.refl _
  | cons x xs =>
    exact shuffleFrom_perm r ((x :: xs).length - 1) (x :: xs) (by simp)

theorem pyRange_one_eq (n : Nat) :
    pyRange 1 ((n : Int) + 1) = oneToN n := by
  unfold pyRange oneToN
  have h : ((n : Int) + 1 - 1).toNat = n := by omega
  rw [h]
  exact List.map_congr_left (fun a _ => Int.add_comm 1 (a : Int))

theorem length_oneToN (n : Nat) : (oneToN n).length = n := by
  simp [oneToN]

theorem digitChar_ne_newline (d : Nat) : digitChar d ≠ '\n' := by
  have h : d % 10 = 0 ∨ d % 10 = 1 ∨ d % 10 = 2 ∨ d % 10 = 3 ∨ d % 10 = 4 ∨
      d % 10 = 5 ∨ d % 10 = 6 ∨ d % 10 = 7 ∨ d % 10 = 8 ∨ d % 10 = 9 := by omega
  rcases h with h | h | h | h | h | h | h | h | h | h <;> simp [digitChar, h]

theorem natToDecimalAux_ne_newline :
    ∀ (fuel n : Nat), ∀ c ∈ natToDecimalAux fuel n, c ≠ '\n' := by
  intro fuel
  induction fuel with
  | zero => intro n c hc; simp [natToDecimalAux] at hc
  | succ fuel ih =>
    intro n c hc
    rw [natToDecimalAux] at hc
    by_cases h : n < 10
    · rw [if_pos h] at hc
      simp only [List.mem_singleton] at hc
      exact hc ▸ digitChar_ne_newline n
    · rw [if_neg h] at hc
      rcases List.mem_append.mp hc with hm | hm
      · exact ih (n / 10) c hm
      · simp only [List.mem_singleton] at hm
        exact hm ▸ digitChar_ne_newline (n % 10)

theorem pyStr_ne_newline (i : Int) : ∀ c ∈ (pyStr i).data, c ≠ '\n' := by
  intro c hc
  unfold pyStr at hc
  by_cases h : i < 0
  · rw [if_pos h, String.data_append] at hc
    rcases List.mem_append.mp hc with hm | hm
    · simp only [show ("-" : String).data = ['-'] from rfl, List.mem_singleton] at hm
      subst hm
      decide
    · exact natToDecimalAux_ne_newline _ _ c hm
  · rw [if_neg h] at hc
    exact natToDecimalAux_ne_newline _ _ c hc

theorem pyJoin_space_ne_newline :
    ∀ (l : List String), (∀ s ∈ l, ∀ c ∈ s.data, c ≠ '\n') →
      ∀ c ∈ (pyJoin " " l).data, c ≠ '\n' := by
  intro l
  induction l with
  | nil => intro _ c hc; simp [pyJoin] at hc
  | cons x xs ih =>
    intro hl c hc
    cases xs with
    | nil => exact hl x (by simp) c hc
    | cons y rest =>
      rw [pyJoin, String.data_append, String.data_append] at hc
      rcases List.mem_append.mp hc with hm | hm
      · rcases List.mem_append.mp hm with hm2 | hm2
        · exact hl x (by simp) c hm2
        · simp only [show (" " : String).data = [' '] from rfl, List.mem_singleton] at hm2
          subst hm2
          decide
      · exact ih (fun s hs => hl s (List.mem_cons_of_mem x hs)) c hm

theorem joined_body_count (l : List Int) :
    ((pyJoin " " (l.map pyStr)).data.count '\n') = 0 := by
  refine List.count_eq_zero.mpr (fun hmem => ?_)
  refine pyJoin_space_ne_newline (l.map pyStr) ?_ '\n' hmem rfl
  intro s hs c hc
  obtain ⟨i, _, rfl⟩ := List.mem_map.mp hs
  exact pyStr_ne_newline i c hc

theorem joined_line_count (l : List Int) :
    ((pyJoin " " (l.map pyStr) ++ "\n").data.count '\n') = 1 := by
  rw [String.data_append, List.count_append, joined_body_count]
  rfl

/-! Claims -/

/-- C1: for every N ≥ 0, when the program is invoked with an argument that
parses to N, the printed integers are exactly the permuted list
`generate_mixed_messages N r`, and that list is a permutation of
`[1, ..., N]` — its multiset equals `{1, ..., N}` — with exactly N
elements. -/
theorem C1_printed_is_permutation_of_one_to_n (N : Nat) (prog arg : String)
    (rest : List String) (r : Nat → Nat) (h : parseInt arg = some (N : Int)) :
    (runMain (prog :: arg :: rest) r).trace =
      [Effect.stdoutWrite
        (pyJoin " " ((generate_mixed_messages (N : Int) r).map pyStr) ++ "\n")] ∧
    (generate_mixed_messages (N : Int) r).Perm (oneToN N) ∧
    (generate_mixed_messages (N : Int) r).length = N := by
  have hperm : (generate_mixed_messages (N : Int) r).Perm (pyRange 1 ((N : Int) + 1)) :=
    shuffle_perm r _
  rw [pyRange_one_eq] at hperm
  refine ⟨by simp [runMain, h], hperm, ?_⟩
  rw [hperm.length_eq, length_oneToN]

/-- Witness for C1 at N = 5 with the constant-zero random oracle. -/
theorem C1_witness :
    parseInt "5" = some ((5 : Nat) : Int) ∧
    ((runMain ["prog", "5"] (fun _ => 0)).trace =
      [Effect.stdoutWrite
        (pyJoin " " ((generate_mixed_messages ((5 : Nat) : Int) (fun _ => 0)).map pyStr) ++ "\n")] ∧
    (generate_mixed_messages ((5 : Nat) : Int) (fun _ => 0)).Perm (oneToN 5) ∧
    (generate_mixed_messages ((5 : Nat) : Int) (fun _ => 0)).length = 5) :=
  ⟨by decide, C1_printed_is_permutation_of_one_to_n 5 "prog" "5" [] (fun _ => 0) (by decide)⟩

/-- C2: with no command-line argument (`sys.argv` is just the program name,
or even empty) the program does no work: exit status 0 and an empty effect
trace, so no output and no error. -/
theorem C2_no_argument_no_work (prog : String) (r : Nat → Nat) :
    runMain [prog] r = ⟨0, []⟩ ∧ runMain [] r = ⟨0, []⟩ :=
  ⟨rfl, rfl⟩

/-- C3: when the first argument does not parse as an integer, the
`ValueError` propagates: the exit status is non-zero and nothing is written
to standard output. -/
theorem C3_parse_error_nonzero_exit (prog s : String) (rest : List String)
    (r : Nat → Nat) (h : parseInt s = none) :
    (runMain (prog :: s :: rest) r).exitCode ≠ 0 ∧
    (runMain (prog :: s :: rest) r).trace = [] := by
  simp [runMain, h]

/-- Witness for C3 at the argument "abc". -/
theorem C3_witness :
    parseInt "abc" = none ∧
    ((runMain ["prog", "abc"] (fun _ => 0)).exitCode ≠ 0 ∧
     (runMain ["prog", "abc"] (fun _ => 0)).trace = []) :=
  ⟨by decide, C3_parse_error_nonzero_exit "prog" "abc" [] (fun _ => 0) (by decide)⟩

/-- C4: with argument "0" the sequence is empty and the program prints an
empty line — the written text is just the newline `print` appends. -/
theorem C4_zero_prints_empty_line (prog : String) (rest : List String) (r : Nat → Nat) :
    generate_mixed_messages 0 r = [] ∧
    runMain (prog :: "0" :: rest) r = ⟨0, [Effect.stdoutWrite "\n"]⟩ :=
  ⟨rfl, rfl⟩

/-- C5: with argument "1" the sequence is `[1]`, unchanged by the shuffle
(the Fisher-Yates loop body never runs), and the printed line is exactly
"1" followed by the newline `print` appends. -/
theorem C5_one_prints_one (prog : String) (rest : List String) (r : Nat → Nat) :
    generate_mixed_messages 1 r = [1] ∧
    runMain (prog :: "1" :: rest) r = ⟨0, [Effect.stdoutWrite "1\n"]⟩ :=
  ⟨rfl, rfl⟩

/-- C6: whenever output is produced (the argument parses as an integer),
exactly one line is written to standard output: the permuted sequence
rendered as decimal integers separated by single spaces, followed by a
newline — the written string contains exactly one newline character and it
is the final character appended by `print`. -/
theorem C6_output_is_one_line (prog arg : String) (rest : List String)
    (r : Nat → Nat) (n : Int) (h : parseInt arg = some n) :
    (runMain (prog :: arg :: rest) r).trace =
      [Effect.stdoutWrite
        (pyJoin " " ((generate_mixed_messages n r).map pyStr) ++ "\n")] ∧
    ((pyJoin " " ((generate_mixed_messages n r).map pyStr) ++ "\n").data.count '\n') = 1 ∧
    ((pyJoin " " ((generate_mixed_messages n r).map pyStr)).data.count '\n') = 0 :=
  ⟨by simp [runMain, h], joined_line_count _, joined_body_count _⟩

/-- Witness for C6 at the argument "2" with the constant-zero oracle. -/
theorem C6_witness :
    parseInt "2" = some (2 : Int) ∧
    ((runMain ["prog", "2"] (fun _ => 0)).trace =
      [Effect.stdoutWrite
        (pyJoin " " ((generate_mixed_messages (2 : Int) (fun _ => 0)).map pyStr) ++ "\n")] ∧
    ((pyJoin " " ((generate_mixed_messages (2 : Int) (fun _ => 0)).map pyStr) ++ "\n").data.count '\n') = 1 ∧
    ((pyJoin " " ((generate_mixed_messages (2 : Int) (fun _ => 0)).map pyStr)).data.count '\n') = 0) :=
  ⟨by decide, C6_output_is_one_line "prog" "2" [] (fun _ => 0) 2 (by decide)⟩

/-- C8: whenever the argument parses as an integer, nothing after parsing
can fail: building the sequence, shuffling and printing all succeed, the
exit status is 0 and the single printed line is produced. -/
theorem C8_valid_argument_cannot_fail (prog arg : String) (rest : List String)
    (r : Nat → Nat) (n : Int) (h : parseInt arg = some n) :
    (runMain (prog :: arg :: rest) r).exitCode = 0 ∧
    (runMain (prog :: arg :: rest) r).trace =
      [Effect.stdoutWrite
        (pyJoin " " ((generate_mixed_messages n r).map pyStr) ++ "\n")] := by
  simp [runMain, h]

/-- Witness for C8 at the argument "7". -/
theorem C8_witness :
    parseInt "7" = some (7 : Int) ∧
    ((runMain ["prog", "7"] (fun _ => 0)).exitCode = 0 ∧
    (runMain ["prog", "7"] (fun _ => 0)).trace =
      [Effect.stdoutWrite
        (pyJoin " " ((generate_mixed_messages (7 : Int) (fun _ => 0)).map pyStr) ++ "\n")]) :=
  ⟨by decide, C8_valid_argument_cannot_fail "prog" "7" [] (fun _ => 0) 7 (by decide)⟩

/-- C9: a negative integer argument is accepted without error and behaves
exactly like N = 0: `range(1, n + 1)` is empty, the shuffle leaves it
empty, the printed line is empty, the exit status is 0, and the whole run
is indistinguishable from a run with argument "0". -/
theorem C9_negative_behaves_like_zero (prog arg : String) (rest : List String)
    (r : Nat → Nat) (n : Int) (h : parseInt arg = some n) (hneg : n < 0) :
    generate_mixed_messages n r = [] ∧
    runMain (prog :: arg :: rest) r = ⟨0, [Effect.stdoutWrite "\n"]⟩ ∧
    runMain (prog :: arg :: rest) r = runMain (prog :: "0" :: rest) r := by
  have hempty : pyRange 1 (n + 1) = [] := by
    unfold pyRange
    have ht : (n + 1 - 1).toNat = 0 := by omega
    rw [ht]
    rfl
  have hgen : generate_mixed_messages n r = [] := by
    unfold generate_mixed_messages shuffle
    rw [hempty]
    rfl
  have hrun : runMain (prog :: arg :: rest) r =
      ⟨0, [Effect.stdoutWrite (pyJoin " " ((generate_mixed_messages n r).map pyStr) ++ "\n")]⟩ := by
    simp [runMain, h]
  rw [hrun, hgen]
  exact ⟨rfl, rfl, rfl⟩

/-- Witness for C9 at the argument "-5". -/
theorem C9_witness :
    parseInt "-5" = some (-5 : Int) ∧ (-5 : Int) < 0 ∧
    (generate_mixed_messages (-5 : Int) (fun _ => 0) = [] ∧
    runMain ["prog", "-5"] (fun _ => 0) = ⟨0, [Effect.stdoutWrite "\n"]⟩ ∧
    runMain ["prog", "-5"] (fun _ => 0) = runMain ["prog", "0"] (fun _ => 0)) :=
  ⟨by decide, by decide,
    C9_negative_behaves_like_zero "prog" "-5" [] (fun _ => 0) (-5) (by decide) (by decide)⟩

/-- C10: on every invocation the only effects in the trace are writes to
standard output: no file is read or written and no network access occurs,
for any argument vector and any random oracle. -/
theorem C10_only_stdout_effects (argv : List String) (r : Nat → Nat) :
    ((runMain argv r).trace.all Effect.isStdoutWrite) = true := by
  match argv with
  | [] => rfl
  | [_] => rfl
  | _ :: arg :: _ =>
    cases h : parseInt arg with
    | none => simp [runMain, h]
    | some n => simp [runMain, h, Effect.isStdoutWrite]

end ShuffleScript
